import Mathlib

/-!
Shallow embedding of `pixelplotter.py` (class `ChartDigitizer`).

Modelling conventions:
* Python floats are modelled as `ℚ` (all arithmetic in the program is the
  field arithmetic `+ - * /`; `int(...)` truncation toward zero is modelled
  by `ratTrunc`).
* A Tk entry widget is represented by the outcome of `float(entry.get())`:
  `some v` when the text parses as a number, `none` when `float` raises.
* The loaded OpenCV image is represented by `none` (no image) or
  `some (h, w)` — only `image.shape[:2]` is ever read by the modelled code.
* A Treeview row `(index, px, py, x_str, y_str)` is a `Row`; the formatted
  strings `f"{v:.6g}"` for the calibrated columns are represented by the
  value itself (`some v`), the empty string by `none`.  `messagebox` error
  popups in `convert_points` are modelled as the `Except.error` branch.
-/

/-- One row of the Treeview table: `(index, pixel x, pixel y, calib x, calib y)`. -/
structure Row where
  idx : ℕ
  px : ℤ
  py : ℤ
  cx : Option ℚ
  cy : Option ℚ
deriving DecidableEq

/-- The mutable state of `ChartDigitizer` that the modelled methods touch. -/
structure AppState where
  image : Option (ℕ × ℕ)
  scale : ℚ
  offset_x : ℚ
  offset_y : ℚ
  drag_start : Option (ℚ × ℚ)
  axis_points : List (ℤ × ℤ)
  data_points : List (ℤ × ℤ)
  panning_by_shift : Bool
  x0_entry : Option ℚ
  x1_entry : Option ℚ
  y0_entry : Option ℚ
  y1_entry : Option ℚ
  table : List Row
deriving DecidableEq

/-- State set up in `__init__` (image `None`, scale 1, offsets 0, empty
lists, empty entries, empty table). -/
def init : AppState where
  image := none
  scale := 1
  offset_x := 0
  offset_y := 0
  drag_start := none
  axis_points := []
  data_points := []
  panning_by_shift := false
  x0_entry := none
  x1_entry := none
  y0_entry := none
  y1_entry := none
  table := []

/-- Python `int(...)` on a float: truncation toward zero. -/
def ratTrunc (q : ℚ) : ℤ :=
  if 0 ≤ q then ⌊q⌋ else ⌈q⌉

/-- The shared `try: float(entry.get()) ...` block of
`compute_calibrated_point` and `convert_points`: all four axis-value
entries must parse. -/
def axis_values (s : AppState) : Option (ℚ × ℚ × ℚ × ℚ) := do
  let x0_val ← s.x0_entry
  let x1_val ← s.x1_entry
  let y0_val ← s.y0_entry
  let y1_val ← s.y1_entry
  pure (x0_val, x1_val, y0_val, y1_val)

/-- `ChartDigitizer.compute_calibrated_point` (lines 352-371). -/
def compute_calibrated_point (s : AppState) (img_x img_y : ℚ) : Option (ℚ × ℚ) :=
  if s.image = none ∨ s.axis_points.length ≠ 4 then none
  else
    match axis_values s with
    | none => none
    | some (x0_val, x1_val, y0_val, y1_val) =>
      let x0_px := (s.axis_points.getD 0 (0, 0)).1
      let x1_px := (s.axis_points.getD 1 (0, 0)).1
      let y0_py := (s.axis_points.getD 2 (0, 0)).2
      let y1_py := (s.axis_points.getD 3 (0, 0)).2
      if x1_px = x0_px ∨ y0_py = y1_py then none
      else
        let x_scale := (x1_val - x0_val) / ((x1_px : ℚ) - (x0_px : ℚ))
        let y_scale := (y1_val - y0_val) / ((y0_py : ℚ) - (y1_py : ℚ))
        some (x0_val + (img_x - (x0_px : ℚ)) * x_scale,
              y0_val + ((y0_py : ℚ) - img_y) * y_scale)

/-- The row built for data point `p` with 1-based index `i`
(`tree.insert` with `f"{calib:.6g}"` columns, or empty strings when
`compute_calibrated_point` returned `None`). -/
def mk_row (s : AppState) (i : ℕ) (p : ℤ × ℤ) : Row :=
  match compute_calibrated_point s (p.1 : ℚ) (p.2 : ℚ) with
  | none => ⟨i, p.1, p.2, none, none⟩
  | some c => ⟨i, p.1, p.2, some c.1, some c.2⟩

/-- The loop body of `refresh_table`: `for i, (px, py) in
enumerate(self.data_points, start=1)`. -/
def project_rows (s : AppState) : ℕ → List (ℤ × ℤ) → List Row
  | _, [] => []
  | i, p :: ps => mk_row s i p :: project_rows s (i + 1) ps

/-- `ChartDigitizer.refresh_table` (lines 301-311). -/
def refresh_table (s : AppState) : AppState :=
  { s with table := project_rows s 1 s.data_points }

/-- `ChartDigitizer.on_left_click` (lines 243-269). -/
def on_left_click (s : AppState) (ex ey : ℚ) : AppState :=
  if s.panning_by_shift then s
  else
    match s.image with
    | none => s
    | some hw =>
      let w := hw.2
      let h := hw.1
      let img_x : ℤ := max 0 (min ((w : ℤ) - 1) (ratTrunc ((ex - s.offset_x) / s.scale)))
      let img_y : ℤ := max 0 (min ((h : ℤ) - 1) (ratTrunc ((ey - s.offset_y) / s.scale)))
      if s.axis_points.length < 4 then
        { s with axis_points := s.axis_points ++ [(img_x, img_y)] }
      else
        let data' := s.data_points ++ [(img_x, img_y)]
        { s with data_points := data',
                 table := s.table ++ [mk_row s data'.length (img_x, img_y)] }

/-- The delete loop of `delete_selected`: drop the selected tree rows
(selection modelled by the predicate on 0-based row positions). -/
def remove_selected (sel : ℕ → Bool) : ℕ → List Row → List Row
  | _, [] => []
  | i, r :: rs =>
    if sel i then remove_selected sel (i + 1) rs
    else r :: remove_selected sel (i + 1) rs

/-- `ChartDigitizer.delete_selected` (lines 272-295): delete the selected
rows, rebuild `data_points` from the surviving rows (the `int(vals[1])`
parses always succeed: rows only ever hold integer pixel fields), then
`refresh_table`. -/
def delete_selected (s : AppState) (sel : ℕ → Bool) : AppState :=
  let remaining := remove_selected sel 0 s.table
  refresh_table { s with table := remaining,
                         data_points := remaining.map (fun r => (r.px, r.py)) }

/-- `ChartDigitizer.clear_table` (lines 297-299). -/
def clear_table (s : AppState) : AppState :=
  { s with table := [], data_points := [] }

/-- `ChartDigitizer.on_zoom` (lines 374-387); `delta` is the wheel delta. -/
def on_zoom (s : AppState) (delta : ℤ) (mx my : ℚ) : AppState :=
  match s.image with
  | none => s
  | some _ =>
    let factor : ℚ := if 0 < delta then 11 / 10 else 9 / 10
    let ix_before := (mx - s.offset_x) / s.scale
    let iy_before := (my - s.offset_y) / s.scale
    let scale' := s.scale * factor
    refresh_table { s with scale := scale',
                           offset_x := mx - ix_before * scale',
                           offset_y := my - iy_before * scale' }

/-- `ChartDigitizer.start_pan` (lines 389-391). -/
def start_pan (s : AppState) (ex ey : ℚ) : AppState :=
  { s with drag_start := some (ex, ey), panning_by_shift := false }

/-- `ChartDigitizer.start_pan_shift` (lines 393-395). -/
def start_pan_shift (s : AppState) (ex ey : ℚ) : AppState :=
  { s with drag_start := some (ex, ey), panning_by_shift := true }

/-- `ChartDigitizer.do_pan` (lines 397-406). -/
def do_pan (s : AppState) (ex ey : ℚ) : AppState :=
  match s.drag_start with
  | none => s
  | some d =>
    refresh_table { s with offset_x := s.offset_x + (ex - d.1),
                           offset_y := s.offset_y + (ey - d.2),
                           drag_start := some (ex, ey) }

/-- `ChartDigitizer.end_pan` (lines 408-410). -/
def end_pan (s : AppState) : AppState :=
  { s with drag_start := none, panning_by_shift := false }

/-- The three `messagebox.showerror` validation failures of
`convert_points`. -/
inductive ConvError where
  | needFourAxisPoints
  | nonNumericAxisValues
  | degenerateAxisPoints
deriving DecidableEq

/-- `ChartDigitizer.convert_points` (lines 413-440); the error popups are
the `Except.error` branch, the returned list holds `(px, py, x_val, y_val)`. -/
def convert_points (s : AppState) : Except ConvError (List (ℤ × ℤ × ℚ × ℚ)) :=
  if s.axis_points.length ≠ 4 then .error .needFourAxisPoints
  else
    match axis_values s with
    | none => .error .nonNumericAxisValues
    | some (x0_val, x1_val, y0_val, y1_val) =>
      let x0_px := (s.axis_points.getD 0 (0, 0)).1
      let x1_px := (s.axis_points.getD 1 (0, 0)).1
      let y0_py := (s.axis_points.getD 2 (0, 0)).2
      let y1_py := (s.axis_points.getD 3 (0, 0)).2
      if x1_px = x0_px ∨ y0_py = y1_py then .error .degenerateAxisPoints
      else
        let x_scale := (x1_val - x0_val) / ((x1_px : ℚ) - (x0_px : ℚ))
        let y_scale := (y1_val - y0_val) / ((y0_py : ℚ) - (y1_py : ℚ))
        .ok (s.data_points.map (fun p =>
          (p.1, p.2,
           x0_val + ((p.1 : ℚ) - (x0_px : ℚ)) * x_scale,
           y0_val + ((y0_py : ℚ) - (p.2 : ℚ)) * y_scale)))

/-- The pair appended to `rows` in `plot_data` for one table row: the
calibrated pair when both calibrated cells are non-empty, else the raw
pixel pair (the `int`/`float` parses always succeed on model rows, so the
`except: pass` branch is dead). -/
def plot_row_pair (r : Row) : ℚ × ℚ :=
  match r.cx, r.cy with
  | some cx, some cy => (cx, cy)
  | _, _ => ((r.px : ℚ), (r.py : ℚ))

/-- `ChartDigitizer.plot_data` (lines 485-516): `some pairs` is the
sequence handed to `plt.plot`, `none` means no plot window is shown. -/
def plot_data (s : AppState) : Option (List (ℚ × ℚ)) :=
  let rows := s.table.map plot_row_pair
  if rows.isEmpty ∧ ¬s.data_points.isEmpty then
    match convert_points s with
    | .error _ => none
    | .ok conv =>
      let rows2 := rows ++ conv.map (fun c => (c.2.2.1, c.2.2.2))
      if rows2.isEmpty then none else some rows2
  else if rows.isEmpty then none else some rows

/-- `ChartDigitizer.load_image` on a successful read of an `h × w` image:
`self.image = img` then `reset_view(keep_table=False)` (which clears the
view state, both point lists and — via `clear_table` — the table). -/
def load_image (s : AppState) (h w : ℕ) : AppState :=
  { s with image := some (h, w), scale := 1, offset_x := 0, offset_y := 0,
           drag_start := none, axis_points := [], data_points := [],
           table := [] }

/-- User events the embedding replays against the state (each constructor
is one bound Tk callback; `setEntries` models typing into the four axis
entry boxes, recorded as the parse outcome of each box). -/
inductive Op where
  | load (h w : ℕ)
  | click (ex ey : ℚ)
  | setEntries (x0 x1 y0 y1 : Option ℚ)
  | deleteSel (sel : ℕ → Bool)
  | clearTable
  | zoom (delta : ℤ) (mx my : ℚ)
  | panStart (ex ey : ℚ)
  | panStartShift (ex ey : ℚ)
  | panMove (ex ey : ℚ)
  | panEnd

/-- Dispatch of one event to the corresponding handler. -/
def step (s : AppState) : Op → AppState
  | .load h w => load_image s h w
  | .click ex ey => on_left_click s ex ey
  | .setEntries a b c d =>
    { s with x0_entry := a, x1_entry := b, y0_entry := c, y1_entry := d }
  | .deleteSel sel => delete_selected s sel
  | .clearTable => clear_table s
  | .zoom delta mx my => on_zoom s delta mx my
  | .panStart ex ey => start_pan s ex ey
  | .panStartShift ex ey => start_pan_shift s ex ey
  | .panMove ex ey => do_pan s ex ey
  | .panEnd => end_pan s

/-- Replay a sequence of events in arrival order. -/
def run (ops : List Op) (s : AppState) : AppState :=
  ops.foldl step s

/-- Bounds predicate for a stored point on an `h × w` image: both
coordinates clamped into `[0, w-1] × [0, h-1]`. -/
def in_bounds (h w : ℕ) (p : ℤ × ℤ) : Prop :=
  0 ≤ p.1 ∧ p.1 ≤ (w : ℤ) - 1 ∧ 0 ≤ p.2 ∧ p.2 ≤ (h : ℤ) - 1

/-- Table/store consistency invariant: one table row per stored data
point, with the index column running 1..N in order. -/
def table_consistent (s : AppState) : Prop :=
  s.table.length = s.data_points.length ∧
  s.table.map Row.idx = List.range' 1 s.data_points.length

/-- A state with a 200-wide, 100-high image loaded, the four axis points
of the spec's round-trip scenario, and axis values 0, 100, 0, 100. -/
def s1 : AppState :=
  { image := some (100, 200), scale := 1, offset_x := 0, offset_y := 0,
    drag_start := none,
    axis_points := [(10, 0), (110, 0), (0, 80), (0, 0)],
    data_points := [], panning_by_shift := false,
    x0_entry := some 0, x1_entry := some 100,
    y0_entry := some 0, y1_entry := some 100,
    table := [] }

/-- The same axis points and entry values as `s1`, but no loaded image. -/
def s3 : AppState :=
  { s1 with image := none }

/-- Like `s1` but with degenerate axis geometry: `X0` and `X1` share the
pixel-x coordinate 10. -/
def s8 : AppState :=
  { s1 with axis_points := [(10, 0), (10, 5), (0, 80), (0, 0)] }

/-- Event sequence: load a 200×100 image, click the four axis points,
click a data point while the axis-value boxes are still empty, then type
the axis values 0, 100, 0, 100, then click a second data point. -/
def ops5 : List Op :=
  [.load 100 200, .click 10 0, .click 110 0, .click 0 80, .click 0 0,
   .click 60 40, .setEntries (some 0) (some 100) (some 0) (some 100),
   .click 80 60]

/-- The state `ops5` ends in: the first table row predates the axis
values and has empty calibrated cells, the second has calibrated cells. -/
def sMix : AppState :=
  { image := some (100, 200), scale := 1, offset_x := 0, offset_y := 0,
    drag_start := none,
    axis_points := [(10, 0), (110, 0), (0, 80), (0, 0)],
    data_points := [(60, 40), (80, 60)], panning_by_shift := false,
    x0_entry := some 0, x1_entry := some 100,
    y0_entry := some 0, y1_entry := some 100,
    table := [⟨1, 60, 40, none, none⟩, ⟨2, 80, 60, some 70, some 25⟩] }

/-- The row index produced by `mk_row` is the index it was given. -/
theorem mk_row_idx (s : AppState) (i : ℕ) (p : ℤ × ℤ) : (mk_row s i p).idx = i := by
  cases h : compute_calibrated_point s (p.1 : ℚ) (p.2 : ℚ) <;> simp [mk_row, h]

/-- `project_rows` yields one row per data point. -/
theorem project_rows_length (s : AppState) (i : ℕ) (ps : List (ℤ × ℤ)) :
    (project_rows s i ps).length = ps.length := by
  induction ps generalizing i with
  | nil => rfl
  | cons p ps ih => simp [project_rows, ih]

/-- The index column produced by `project_rows` counts up from its start
index. -/
theorem project_rows_idx (s : AppState) (i : ℕ) (ps : List (ℤ × ℤ)) :
    (project_rows s i ps).map Row.idx = List.range' i ps.length := by
  induction ps generalizing i with
  | nil => rfl
  | cons p ps ih => simp [project_rows, mk_row_idx, ih, List.range'_succ]

/-- `refresh_table` re-establishes the table consistency invariant. -/
theorem table_consistent_refresh (s : AppState) : table_consistent (refresh_table s) :=
  ⟨by simp [refresh_table, project_rows_length],
   by simp [refresh_table, project_rows_idx]⟩

/-- Every event handler preserves the table consistency invariant. -/
theorem step_table_consistent (s : AppState) (op : Op)
    (h : table_consistent s) : table_consistent (step s op) := by
  cases op with
  | load hh ww => exact ⟨rfl, rfl⟩
  | click ex ey =>
    show table_consistent (on_left_click s ex ey)
    unfold on_left_click
    by_cases hpan : s.panning_by_shift = true
    · rwa [if_pos hpan]
    · rw [if_neg hpan]
      cases himg : s.image with
      | none => exact h
      | some hw =>
        by_cases hlen : s.axis_points.length < 4
        · simp only [if_pos hlen]
          exact h
        · simp only [if_neg hlen]
          obtain ⟨h1, h2⟩ := h
          refine ⟨by simp [h1], ?_⟩
          simp only [List.map_append, List.length_append, List.map_cons, List.map_nil,
            mk_row_idx, h2, List.length_cons, List.length_nil]
          rw [List.range'_concat]
          simp [Nat.add_comm]
  | setEntries a b c d => exact h
  | deleteSel sel => exact table_consistent_refresh _
  | clearTable => exact ⟨rfl, rfl⟩
  | zoom delta mx my =>
    show table_consistent (on_zoom s delta mx my)
    unfold on_zoom
    cases himg : s.image with
    | none => exact h
    | some hw => exact table_consistent_refresh _
  | panStart ex ey => exact h
  | panStartShift ex ey => exact h
  | panMove ex ey =>
    show table_consistent (do_pan s ex ey)
    unfold do_pan
    cases hd : s.drag_start with
    | none => exact h
    | some d => exact table_consistent_refresh _
  | panEnd => exact h

/-- Replaying any event sequence preserves the table consistency
invariant. -/
theorem run_table_consistent (ops : List Op) (s : AppState)
    (h : table_consistent s) : table_consistent (run ops s) := by
  induction ops generalizing s with
  | nil => exact h
  | cons op ops ih => exact ih _ (step_table_consistent s op h)

/-- Every event handler keeps the axis-point list at no more than 4
entries. -/
theorem step_axis_le (s : AppState) (op : Op)
    (h : s.axis_points.length ≤ 4) : (step s op).axis_points.length ≤ 4 := by
  cases op with
  | load hh ww => simp [step, load_image]
  | click ex ey =>
    show (on_left_click s ex ey).axis_points.length ≤ 4
    unfold on_left_click
    by_cases hpan : s.panning_by_shift = true
    · rwa [if_pos hpan]
    · rw [if_neg hpan]
      cases himg : s.image with
      | none => exact h
      | some hw =>
        by_cases hlen : s.axis_points.length < 4
        · simp only [if_pos hlen, List.length_append, List.length_cons, List.length_nil]
          omega
        · simp only [if_neg hlen]
          exact h
  | setEntries a b c d => exact h
  | deleteSel sel => exact h
  | clearTable => exact h
  | zoom delta mx my =>
    show (on_zoom s delta mx my).axis_points.length ≤ 4
    unfold on_zoom
    cases himg : s.image with
    | none => exact h
    | some hw => exact h
  | panStart ex ey => exact h
  | panStartShift ex ey => exact h
  | panMove ex ey =>
    show (do_pan s ex ey).axis_points.length ≤ 4
    unfold do_pan
    cases hd : s.drag_start with
    | none => exact h
    | some d => exact h
  | panEnd => exact h

/-- Replaying any event sequence keeps the axis-point list at no more
than 4 entries. -/
theorem run_axis_le (ops : List Op) (s : AppState)
    (h : s.axis_points.length ≤ 4) : (run ops s).axis_points.length ≤ 4 := by
  induction ops generalizing s with
  | nil => exact h
  | cons op ops ih => exact ih _ (step_axis_le s op h)

/-- When all four entries parse, `axis_values` returns the parsed
quadruple. -/
theorem axis_values_some (s : AppState)
    (hx0 : s.x0_entry ≠ none) (hx1 : s.x1_entry ≠ none)
    (hy0 : s.y0_entry ≠ none) (hy1 : s.y1_entry ≠ none) :
    ∃ a b c d : ℚ, axis_values s = some (a, b, c, d) := by
  obtain ⟨a, ha⟩ := Option.ne_none_iff_exists'.mp hx0
  obtain ⟨b, hb⟩ := Option.ne_none_iff_exists'.mp hx1
  obtain ⟨c, hc⟩ := Option.ne_none_iff_exists'.mp hy0
  obtain ⟨d, hd⟩ := Option.ne_none_iff_exists'.mp hy1
  exact ⟨a, b, c, d, by simp [axis_values, ha, hb, hc, hd]⟩

/-- Claim C1: with axis points X0=(10,0), X1=(110,0), Y0=(0,80), Y1=(0,0)
and entered axis values 0, 100, 0, 100, `compute_calibrated_point (60, 40)`
returns exactly (50, 50), with the Y direction inverted. -/
theorem compute_calibrated_point_example :
    compute_calibrated_point s1 60 40 = some (50, 50) := by
  norm_num [s1, compute_calibrated_point, axis_values, List.getD]
  exact fun hx => absurd hx (by simp)

/-- Claim C2: for every state with positive scale, any anchor and any zoom
direction, the image coordinate of the anchor, `(m - offset) / scale`, is
unchanged by `on_zoom` (pointer-centric zoom). -/
theorem zoom_pointer_anchor_invariant (s : AppState) (h : 0 < s.scale)
    (delta : ℤ) (mx my : ℚ) :
    (mx - (on_zoom s delta mx my).offset_x) / (on_zoom s delta mx my).scale
      = (mx - s.offset_x) / s.scale ∧
    (my - (on_zoom s delta mx my).offset_y) / (on_zoom s delta mx my).scale
      = (my - s.offset_y) / s.scale := by
  cases himg : s.image with
  | none => simp [on_zoom, himg]
  | some hw =>
    have hs : s.scale ≠ 0 := ne_of_gt h
    have hf : (if 0 < delta then (11 : ℚ) / 10 else 9 / 10) ≠ 0 := by split <;> norm_num
    simp only [on_zoom, himg, refresh_table]
    constructor <;> field_simp <;> (split <;> ring)

/-- Witness for claim C2: the anchor invariant instantiated at the
concrete state `s1` (scale 1) with anchor (3, 4), zooming in. -/
theorem zoom_pointer_anchor_invariant_witness :
    0 < s1.scale ∧
    ((3 - (on_zoom s1 1 3 4).offset_x) / (on_zoom s1 1 3 4).scale
       = (3 - s1.offset_x) / s1.scale ∧
     (4 - (on_zoom s1 1 3 4).offset_y) / (on_zoom s1 1 3 4).scale
       = (4 - s1.offset_y) / s1.scale) :=
  ⟨by norm_num [s1], zoom_pointer_anchor_invariant s1 (by norm_num [s1]) 1 3 4⟩

/-- Counterexample to claim C3: in the state `s3` every availability
condition listed by the claim holds (4 axis points, all 4 entries parse,
non-degenerate geometry), yet `compute_calibrated_point` returns `none`,
because no image is loaded. -/
theorem calibration_no_image_counterexample :
    s3.axis_points.length = 4 ∧
    s3.x0_entry ≠ none ∧ s3.x1_entry ≠ none ∧
    s3.y0_entry ≠ none ∧ s3.y1_entry ≠ none ∧
    (s3.axis_points.getD 1 (0, 0)).1 ≠ (s3.axis_points.getD 0 (0, 0)).1 ∧
    (s3.axis_points.getD 2 (0, 0)).2 ≠ (s3.axis_points.getD 3 (0, 0)).2 ∧
    compute_calibrated_point s3 60 40 = none := by
  refine ⟨rfl, by decide, by decide, by decide, by decide, by decide, by decide, ?_⟩
  unfold compute_calibrated_point
  rw [if_pos (show s3.image = none ∨ s3.axis_points.length ≠ 4 from Or.inl rfl)]

/-- Claim C3 as amended: `compute_calibrated_point` returns a value
exactly when an image is loaded, exactly 4 axis points exist, all 4
entered axis values parse, and the axis geometry is non-degenerate. -/
theorem calibration_available_iff (s : AppState) (ix iy : ℚ) :
    (compute_calibrated_point s ix iy).isSome = true ↔
      (s.image ≠ none ∧ s.axis_points.length = 4 ∧
       s.x0_entry ≠ none ∧ s.x1_entry ≠ none ∧ s.y0_entry ≠ none ∧ s.y1_entry ≠ none ∧
       (s.axis_points.getD 1 (0, 0)).1 ≠ (s.axis_points.getD 0 (0, 0)).1 ∧
       (s.axis_points.getD 2 (0, 0)).2 ≠ (s.axis_points.getD 3 (0, 0)).2) := by
  unfold compute_calibrated_point
  by_cases h1 : s.image = none ∨ s.axis_points.length ≠ 4
  · rw [if_pos h1]
    rcases h1 with h | h <;> simp [h]
  · push_neg at h1
    obtain ⟨himg, hlen⟩ := h1
    rw [if_neg (by simp [himg, hlen])]
    rcases hx0 : s.x0_entry with _ | x0v <;>
    rcases hx1 : s.x1_entry with _ | x1v <;>
    rcases hy0 : s.y0_entry with _ | y0v <;>
    rcases hy1 : s.y1_entry with _ | y1v <;>
      simp [axis_values, hx0, hx1, hy0, hy1, himg, hlen]

/-- Counterexample to claim C4: one zoom-out step from scale 1 yields
scale 9/10, which is not the claimed factor 1/1.1 = 10/11 of the old
scale. -/
theorem zoom_out_factor_counterexample :
    (on_zoom s1 (-1) 0 0).scale = (9 : ℚ) / 10 ∧
    (9 : ℚ) / 10 ≠ s1.scale * (1 / (11 / 10)) := by
  constructor
  · norm_num [on_zoom, s1, refresh_table]
  · norm_num [s1]

/-- Claim C4 as amended: every zoom step on a loaded image multiplies the
scale by exactly 11/10 when zooming in and by exactly 9/10 when zooming
out; no other factor occurs. -/
theorem zoom_scale_factor (s : AppState) (delta : ℤ) (mx my : ℚ)
    (himg : s.image ≠ none) :
    (on_zoom s delta mx my).scale =
      s.scale * (if 0 < delta then (11 : ℚ) / 10 else 9 / 10) := by
  cases h : s.image with
  | none => exact absurd h himg
  | some hw => simp [on_zoom, h, refresh_table]

/-- Witness for claim C4's amended theorem at the concrete state `s1`,
zooming in. -/
theorem zoom_scale_factor_witness :
    s1.image ≠ none ∧
    (on_zoom s1 1 0 0).scale = s1.scale * (if (0 : ℤ) < 1 then (11 : ℚ) / 10 else 9 / 10) :=
  ⟨by decide, zoom_scale_factor s1 1 0 0 (by decide)⟩

/-- The event replay `ops5` ends in the mixed-table state `sMix`. -/
theorem run_ops5_eq : run ops5 init = sMix := by
  norm_num [run, ops5, init, step, load_image, on_left_click,
    compute_calibrated_point, axis_values, mk_row, ratTrunc, sMix,
    min_def, max_def]
  simp

/-- Counterexample to claim C5: after the reachable event sequence `ops5`
the calibrated values (50, 50) and (70, 25) are available for both stored
data points (60, 40) and (80, 60), yet the plotted sequence is
[(60, 40), (70, 25)] — the raw pixel pair of the first row mixed with the
calibrated pair of the second row, and neither the all-calibrated nor the
all-pixel sequence. -/
theorem plot_mixed_pairs_counterexample :
    plot_data (run ops5 init) = some [((60 : ℚ), (40 : ℚ)), ((70 : ℚ), (25 : ℚ))] ∧
    (run ops5 init).data_points = [(60, 40), (80, 60)] ∧
    compute_calibrated_point (run ops5 init) 60 40 = some (50, 50) ∧
    compute_calibrated_point (run ops5 init) 80 60 = some (70, 25) ∧
    plot_data (run ops5 init) ≠ some [((50 : ℚ), (50 : ℚ)), ((70 : ℚ), (25 : ℚ))] ∧
    plot_data (run ops5 init) ≠ some [((60 : ℚ), (40 : ℚ)), ((80 : ℚ), (60 : ℚ))] := by
  rw [run_ops5_eq]
  refine ⟨?_, rfl, ?_, ?_, ?_, ?_⟩ <;>
    norm_num [plot_data, plot_row_pair, sMix, compute_calibrated_point,
      axis_values, List.getD] <;>
    exact fun hx => absurd hx (by simp)

/-- Claim C5 as amended: with a non-empty table, the plot receives exactly
one pair per table row, each row falling back individually — its
calibrated pair when both calibrated cells are present, else its raw
pixel pair — so rows appended under different calibration states can mix. -/
theorem plot_per_row_fallback (s : AppState) (h : s.table ≠ []) :
    plot_data s = some (s.table.map plot_row_pair) := by
  unfold plot_data
  have hne : (s.table.map plot_row_pair).isEmpty = false := by
    simp [List.isEmpty_iff, h]
  simp [hne]

/-- Witness for claim C5's amended theorem at the concrete mixed-table
state `sMix`. -/
theorem plot_per_row_fallback_witness :
    sMix.table ≠ [] ∧ plot_data sMix = some (sMix.table.map plot_row_pair) :=
  ⟨by simp [sMix], plot_per_row_fallback sMix (by simp [sMix])⟩

/-- Claim C6: after replaying any event sequence from the initial state,
the table has exactly one row per stored data point and the index column
is the contiguous sequence 1..N in order. -/
theorem table_rows_track_data_points (ops : List Op) :
    (run ops init).table.length = (run ops init).data_points.length ∧
    (run ops init).table.map Row.idx = List.range' 1 (run ops init).data_points.length :=
  run_table_consistent ops init ⟨rfl, rfl⟩

/-- Claim C7: in every state reachable from the initial state the
axis-point list holds at most 4 points, and once 4 exist a qualifying
click leaves them unchanged and appends a data point instead. -/
theorem axis_points_at_most_four :
    (∀ ops : List Op, (run ops init).axis_points.length ≤ 4) ∧
    (∀ (s : AppState) (ex ey : ℚ), s.axis_points.length = 4 →
      s.panning_by_shift = false → s.image ≠ none →
      (on_left_click s ex ey).axis_points = s.axis_points ∧
      (on_left_click s ex ey).data_points.length = s.data_points.length + 1) := by
  constructor
  · intro ops
    exact run_axis_le ops init (by decide)
  · intro s ex ey h4 hpan himg
    obtain ⟨hw, himg'⟩ := Option.ne_none_iff_exists'.mp himg
    unfold on_left_click
    rw [if_neg (by simp [hpan])]
    simp only [himg']
    rw [if_neg (by omega)]
    exact ⟨rfl, by simp⟩

/-- Witness for claim C7: the capacity bound at the empty replay and the
click behavior at the concrete 4-axis-point state `s1`. -/
theorem axis_points_at_most_four_witness :
    (run [] init).axis_points.length ≤ 4 ∧
    ((on_left_click s1 300 300).axis_points = s1.axis_points ∧
     (on_left_click s1 300 300).data_points.length = s1.data_points.length + 1) :=
  ⟨axis_points_at_most_four.1 [],
   axis_points_at_most_four.2 s1 300 300 rfl rfl (by decide)⟩

/-- Claim C8: with 4 axis points and degenerate axis geometry,
`convert_points` reports a blocking validation error and returns no list
(a `.degenerateAxisPoints` error whenever the entries also parse), and
`compute_calibrated_point` is unavailable on the same state. -/
theorem degenerate_axes_block_conversion (s : AppState)
    (h4 : s.axis_points.length = 4)
    (hdeg : (s.axis_points.getD 1 (0, 0)).1 = (s.axis_points.getD 0 (0, 0)).1 ∨
            (s.axis_points.getD 2 (0, 0)).2 = (s.axis_points.getD 3 (0, 0)).2) :
    (∃ e, convert_points s = .error e) ∧
    (s.x0_entry ≠ none → s.x1_entry ≠ none → s.y0_entry ≠ none → s.y1_entry ≠ none →
      convert_points s = .error .degenerateAxisPoints) ∧
    ∀ ix iy : ℚ, compute_calibrated_point s ix iy = none := by
  refine ⟨?_, ?_, ?_⟩
  · cases hav : axis_values s with
    | none =>
      refine ⟨.nonNumericAxisValues, ?_⟩
      unfold convert_points
      rw [if_neg (by simp [h4])]
      simp [hav]
    | some v =>
      obtain ⟨a, b, c, d⟩ := v
      refine ⟨.degenerateAxisPoints, ?_⟩
      unfold convert_points
      rw [if_neg (by simp [h4])]
      simp only [hav]
      rw [if_pos hdeg]
  · intro hx0 hx1 hy0 hy1
    obtain ⟨a, b, c, d, hav⟩ := axis_values_some s hx0 hx1 hy0 hy1
    unfold convert_points
    rw [if_neg (by simp [h4])]
    simp only [hav]
    rw [if_pos hdeg]
  · intro ix iy
    unfold compute_calibrated_point
    by_cases himg : s.image = none
    · rw [if_pos (Or.inl himg)]
    · rw [if_neg (by simp [himg, h4])]
      cases hav : axis_values s with
      | none => simp [hav]
      | some v =>
        obtain ⟨a, b, c, d⟩ := v
        simp only [hav]
        rw [if_pos hdeg]

/-- Witness for claim C8 at the concrete degenerate state `s8` (X0 and X1
share pixel-x 10). -/
theorem degenerate_axes_block_conversion_witness :
    s8.axis_points.length = 4 ∧
    (s8.axis_points.getD 1 (0, 0)).1 = (s8.axis_points.getD 0 (0, 0)).1 ∧
    ((∃ e, convert_points s8 = .error e) ∧
     (s8.x0_entry ≠ none → s8.x1_entry ≠ none → s8.y0_entry ≠ none → s8.y1_entry ≠ none →
       convert_points s8 = .error .degenerateAxisPoints) ∧
     ∀ ix iy : ℚ, compute_calibrated_point s8 ix iy = none) :=
  ⟨rfl, by decide,
   degenerate_axes_block_conversion s8 rfl (Or.inl (by decide))⟩

/-- Claim C9: a click on a loaded w × h image stores only points whose
coordinates are clamped into [0, w-1] × [0, h-1]; every point the click
adds to either store is within image bounds. -/
theorem click_clamped_to_image_bounds (s : AppState) (ex ey : ℚ) (hh ww : ℕ)
    (himg : s.image = some (hh, ww)) (hw : 1 ≤ ww) (hhh : 1 ≤ hh) :
    (∀ p ∈ (on_left_click s ex ey).axis_points, p ∈ s.axis_points ∨ in_bounds hh ww p) ∧
    (∀ p ∈ (on_left_click s ex ey).data_points, p ∈ s.data_points ∨ in_bounds hh ww p) := by
  have hw' : (1 : ℤ) ≤ (ww : ℤ) := by exact_mod_cast hw
  have hh' : (1 : ℤ) ≤ (hh : ℤ) := by exact_mod_cast hhh
  unfold on_left_click
  by_cases hpan : s.panning_by_shift = true
  · rw [if_pos hpan]
    exact ⟨fun p hp => Or.inl hp, fun p hp => Or.inl hp⟩
  · simp only [if_neg hpan, himg]
    by_cases hlen : s.axis_points.length < 4
    · rw [if_pos hlen]
      constructor
      · intro p hp
        simp only [List.mem_append, List.mem_singleton] at hp
        rcases hp with hp | rfl
        · exact Or.inl hp
        · right
          refine ⟨le_max_left _ _, ?_, le_max_left _ _, ?_⟩ <;> · simp only []; omega
      · intro p hp
        exact Or.inl hp
    · rw [if_neg hlen]
      constructor
      · intro p hp
        exact Or.inl hp
      · intro p hp
        simp only [List.mem_append, List.mem_singleton] at hp
        rcases hp with hp | rfl
        · exact Or.inl hp
        · right
          refine ⟨le_max_left _ _, ?_, le_max_left _ _, ?_⟩ <;> · simp only []; omega

/-- Witness for claim C9: a click far outside the 200 × 100 image of `s1`
still stores only in-bounds points. -/
theorem click_clamped_to_image_bounds_witness :
    s1.image = some (100, 200) ∧ 1 ≤ 200 ∧ 1 ≤ 100 ∧
    ((∀ p ∈ (on_left_click s1 1000 (-50)).axis_points,
        p ∈ s1.axis_points ∨ in_bounds 100 200 p) ∧
     (∀ p ∈ (on_left_click s1 1000 (-50)).data_points,
        p ∈ s1.data_points ∨ in_bounds 100 200 p)) :=
  ⟨rfl, by decide, by decide,
   click_clamped_to_image_bounds s1 1000 (-50) 100 200 rfl (by decide) (by decide)⟩

/-- Claim C10: whenever no image is loaded, `compute_calibrated_point`
returns `none`, regardless of axis points, entries and coordinates. -/
theorem no_image_no_calibration (s : AppState) (ix iy : ℚ)
    (h : s.image = none) : compute_calibrated_point s ix iy = none := by
  unfold compute_calibrated_point
  rw [if_pos (Or.inl h)]

/-- Witness for claim C10 at the initial state, which has no image. -/
theorem no_image_no_calibration_witness :
    init.image = none ∧ compute_calibrated_point init 0 0 = none :=
  ⟨rfl, no_image_no_calibration init 0 0 rfl⟩
